import Mathlib

/-!
Shallow embedding of the connection/session manager of
`src/frontend/app/page.tsx` (MakeMyPC frontend).

The React component keeps its session state in a collection of `useState`
hooks and `useRef` timer handles.  We gather the fields the event handlers
read and write into one record `SessionState`, and translate each handler
(`ws.onclose`, `ws.onmessage`, `sendQuery`, `performHealthCheck`,
`addMessage`, `startHeartbeatMonitoring`, `clearAllTimeouts`, and the
`useEffect` unmount cleanup) into a pure function on that record.

Timers are modelled as `Option Nat` handles: `some d` means the timer is
armed (holding its deadline or delay in milliseconds), `none` means it is
not armed.  Wall-clock time is passed explicitly as a `now : Nat`
parameter where the source calls `Date.now()`.  The random suffix the
source appends to message ids (`Math.random()`) only serves uniqueness and
is omitted; the ISO timestamp strings are represented by `toString now`.
-/

/-- The `ConnectionState` union type of the source. -/
inductive ConnectionState
  | connecting
  | connected
  | disconnected
  | error
  | reconnecting
  | timeout
  | server_error
deriving DecidableEq, Repr

/-- The `ErrorState.type` union of the source. -/
inductive ErrorKind
  | connection
  | timeout
  | server
  | rate_limit
  | parse
  | network
  | unknown
deriving DecidableEq, Repr

/-- The `ErrorState` interface of the source.  The wall-clock `timestamp`
field (`new Date().toISOString()`) carries no information the claims
depend on and is omitted. -/
structure ErrorState where
  type_ : ErrorKind
  message : String
  retryable : Bool
deriving DecidableEq, Repr

/-- `createError` from the source. -/
def createError (t : ErrorKind) (message : String) (retryable : Bool) : ErrorState :=
  { type_ := t, message := message, retryable := retryable }

/-- The `ChatMessage.type` union of the source. -/
inductive ChatMsgType
  | user
  | ai
  | log
deriving DecidableEq, Repr

/-- The optional structured metadata carried by `log` frames
(`metadata?: { input?, tool?, ... }` per the wire protocol). -/
structure Metadata where
  input : Option String
  tool : Option String
deriving DecidableEq, Repr

/-- The `ChatMessage` interface of the source (the `isStreaming` flag is
never set by the handlers we model and is omitted). -/
structure ChatMessage where
  id : String
  type_ : ChatMsgType
  content : String
  timestamp : String
  metadata : Option Metadata
deriving DecidableEq, Repr

/-- The session state: the `useState` fields and `useRef` timer handles of
the component that the modelled handlers read or write. -/
structure SessionState where
  query : String
  connectionState : ConnectionState
  isLoading : Bool
  messages : List ChatMessage
  currentStreamingMessage : String
  error : Option ErrorState
  retryCount : Nat
  lastHeartbeat : Nat
  queryTimeout : Option Nat
  reconnectTimeout : Option Nat
  heartbeatCheck : Option Nat
  healthCheckInterval : Option Nat
deriving DecidableEq, Repr

/-- Source constant `maxRetries = 5`. -/
def maxRetries : Nat := 5

/-- Source constant `maxMessages = 100`. -/
def maxMessages : Nat := 100

/-- Source constant `queryTimeoutMs = 30000`. -/
def queryTimeoutMs : Nat := 30000

/-- Source constant `heartbeatTimeoutMs = 60000`. -/
def heartbeatTimeoutMs : Nat := 60000

/-- `clearAllTimeouts`: clears the reconnect timer, the heartbeat deadline,
the query timeout and the health-check interval. -/
def clearAllTimeouts (s : SessionState) : SessionState :=
  { s with reconnectTimeout := none, heartbeatCheck := none,
           queryTimeout := none, healthCheckInterval := none }

/-- `addMessage`: appends and keeps only the last `maxMessages` entries
(`newMessages.slice(-maxMessages)`). -/
def addMessageList (prev : List ChatMessage) (message : ChatMessage) : List ChatMessage :=
  let newMessages := prev ++ [message]
  if newMessages.length > maxMessages then
    newMessages.drop (newMessages.length - maxMessages)
  else
    newMessages

/-- `startHeartbeatMonitoring`: clears any pending heartbeat-deadline timer
and arms a fresh one `heartbeatTimeoutMs` from now. -/
def startHeartbeatMonitoring (now : Nat) (s : SessionState) : SessionState :=
  { s with heartbeatCheck := some (now + heartbeatTimeoutMs) }

/-- A JSON value as far as the handler inspects it: the `content` field is
either a string, some non-string value, or absent. -/
inductive JsValue
  | str (s : String)
  | nonString
  | absent
deriving DecidableEq, Repr

/-- Whether `typeof content === "string"` holds. -/
def JsValue.isStr : JsValue → Bool
  | .str _ => true
  | _ => false

/-- The string payload of a `content` value known to be a string. -/
def JsValue.getStr : JsValue → String
  | .str s => s
  | _ => ""

/-- JavaScript truthiness of the `type` field (`!message.type`): absent and
the empty string are falsy.  (Non-string `type` values are not modelled;
no claim depends on them.) -/
def jsTruthy : Option String → Bool
  | none => false
  | some s => !(s == "")

/-- JavaScript `String.prototype.trim()`: strips leading and trailing
whitespace.  Defined on the character list so that it evaluates inside the
kernel (core `String.trim` is defined by well-founded recursion on byte
positions and does not reduce). -/
def jsTrim (s : String) : String :=
  String.mk ((s.data.dropWhile Char.isWhitespace).reverse.dropWhile
    Char.isWhitespace).reverse

/-- An inbound websocket frame as the `onmessage` handler sees it:
either `JSON.parse` throws (`malformed`), or it yields an object with an
optional `type` tag, a `content` value, an optional `timestamp` and
optional `metadata`. -/
inductive InboundFrame
  | malformed
  | frame (type_ : Option String) (content : JsValue)
      (timestamp : Option String) (metadata : Option Metadata)
deriving DecidableEq, Repr

/-- `ws.onmessage`: decodes the frame and dispatches on `message.type`.
Returns the new state together with the list of chat messages delivered to
the UI sink (`addMessage` calls) during this invocation. -/
def wsOnMessage (f : InboundFrame) (now : Nat) (s : SessionState) :
    SessionState × List ChatMessage :=
  match f with
  | .malformed =>
      ({ s with
          error := some (createError .parse "Received invalid response from server" true) },
        [])
  | .frame t c ts md =>
      if !(jsTruthy t) || !(c.isStr) then
        ({ s with
            error := some (createError .parse "Received malformed message from server" true) },
          [])
      else
        let content := c.getStr
        if t = some "connection_status" then
          (s, [])
        else if t = some "heartbeat" then
          (startHeartbeatMonitoring now { s with lastHeartbeat := now }, [])
        else if t = some "log" then
          let m : ChatMessage :=
            { id := toString now, type_ := .log, content := content,
              timestamp := ts.getD (toString now), metadata := md }
          ({ s with messages := addMessageList s.messages m }, [m])
        else if t = some "final_output" then
          let s1 := { s with queryTimeout := none }
          let m : ChatMessage :=
            { id := toString now, type_ := .ai, content := content,
              timestamp := ts.getD (toString now), metadata := none }
          ({ s1 with
              messages := addMessageList s1.messages m,
              currentStreamingMessage := "", isLoading := false }, [m])
        else
          (s, [])

/-- The first half of `ws.onclose`: clear the connection timeout and all
session timers, drop the loading flag, then apply the close-code policy.
`done` is an early `return`; `proceed` falls through to the retry block. -/
inductive CloseStep
  | done (s : SessionState)
  | proceed (s : SessionState)
deriving DecidableEq, Repr

/-- The state carried by a `CloseStep`. -/
def CloseStep.state : CloseStep → SessionState
  | .done s => s
  | .proceed s => s

/-- Whether the close-code policy returned early (codes 1000, 1008, 1003). -/
def CloseStep.returnedEarly : CloseStep → Bool
  | .done _ => true
  | .proceed _ => false

/-- Lines 318-353 of `ws.onclose`: `clearAllTimeouts`, `setIsLoading(false)`
and the close-code dispatch. -/
def closeCodeStep (code : Nat) (s : SessionState) : CloseStep :=
  let s0 := clearAllTimeouts s
  let s1 := { s0 with isLoading := false }
  if code = 1000 then
    .done { s1 with connectionState := .disconnected }
  else if code = 1008 ∨ code = 1003 then
    .done { s1 with
      error := some (createError .server
        "Server rejected connection. Please try again later." false),
      connectionState := .server_error }
  else if code = 1013 then
    .proceed { s1 with
      error := some (createError .rate_limit
        "Server is currently overloaded. Retrying..." true),
      connectionState := .server_error }
  else
    .proceed { s1 with connectionState := .disconnected }

/-- Lines 355-381 of `ws.onclose`: schedule a reconnect with exponential
backoff while under the retry ceiling, else enter terminal `error`.
Returns the new state and the scheduled delay, if any. -/
def retryStep (s : SessionState) : SessionState × Option Nat :=
  if s.retryCount < maxRetries then
    let delay := min (2 ^ s.retryCount * 1000) 30000
    ({ s with
        connectionState := .reconnecting,
        error := some (createError .connection
          ("Reconnecting in " ++ toString ((delay + 999) / 1000) ++ " seconds... ("
            ++ toString (s.retryCount + 1) ++ "/" ++ toString maxRetries ++ ")") true),
        reconnectTimeout := some delay }, some delay)
  else
    ({ s with
        error := some (createError .connection
          ("Connection failed after multiple attempts. "
            ++ "Please check your internet connection and try again.") true),
        connectionState := .error }, none)

/-- The whole `ws.onclose` handler.  The second component is the delay of
the scheduled automatic retry, `none` when no retry was scheduled. -/
def wsOnClose (code : Nat) (s : SessionState) : SessionState × Option Nat :=
  match closeCodeStep code s with
  | .done s1 => (s1, none)
  | .proceed s1 => retryStep s1

/-- `sendQuery`: validation, connection and busy checks, then append the
user message, arm the 30 s query timeout and send the frame.  `sendFails`
models `ws.send` throwing.  The second component is the outbound query
payload (the trimmed text), `none` when no frame was sent. -/
def sendQuery (now : Nat) (sendFails : Bool) (s : SessionState) :
    SessionState × Option String :=
  if jsTrim s.query = "" then
    ({ s with error := some (createError .unknown "Please enter a query" false) }, none)
  else if (jsTrim s.query).length > 500 then
    ({ s with error := some (createError .unknown
        "Query is too long. Please keep it under 500 characters." false) }, none)
  else if s.connectionState ≠ ConnectionState.connected then
    ({ s with error := some (createError .connection
        "Not connected to server. Please wait for connection." true) }, none)
  else if s.isLoading then
    ({ s with error := some (createError .unknown
        "Please wait for the current query to complete" false) }, none)
  else
    let userMessage : ChatMessage :=
      { id := toString now, type_ := .user, content := jsTrim s.query,
        timestamp := toString now, metadata := none }
    let s1 := { s with
      messages := addMessageList s.messages userMessage,
      isLoading := true, error := none, currentStreamingMessage := "",
      queryTimeout := some (now + queryTimeoutMs) }
    if sendFails then
      ({ s1 with
          queryTimeout := none,
          error := some (createError .network
            "Failed to send query. Please try again." true),
          isLoading := false }, none)
    else
      ({ s1 with query := "" }, some (jsTrim s.query))

/-- Outcome of one health probe: any 2xx response (`response.ok`), a
non-2xx response, or a thrown transport error (fetch failure or the 5 s
abort). -/
inductive ProbeOutcome
  | success
  | httpFailure (status : Nat)
  | transportFailure
deriving DecidableEq, Repr

/-- Whether the currently shown error has kind `server`
(`error?.type === "server"`). -/
def errorKindIsServer : Option ErrorState → Bool
  | some e => e.type_ = ErrorKind.server
  | none => false

/-- `performHealthCheck`: a failed probe annotates the status with a
`server`/`network` error (only while `connected`); a successful probe
clears the current error if its kind is `server`. -/
def performHealthCheck (r : ProbeOutcome) (s : SessionState) : SessionState :=
  match r with
  | .httpFailure _ =>
      if s.connectionState = ConnectionState.connected then
        { s with error := some (createError .server
            "Backend service may be experiencing issues" true) }
      else s
  | .success =>
      if errorKindIsServer s.error then { s with error := none } else s
  | .transportFailure =>
      if s.connectionState = ConnectionState.connected then
        { s with error := some (createError .network
            "Backend service health check failed" true) }
      else s

/-- The `useEffect` unmount cleanup (lines 583-591): clears the reconnect
timer and the health-check interval, then closes the websocket if present.
The second component counts `close()` calls on the transport. -/
def unmountCleanup (wsPresent : Bool) (s : SessionState) : SessionState × Nat :=
  let s1 := { s with reconnectTimeout := none, healthCheckInterval := none }
  (s1, if wsPresent then 1 else 0)

/-- A connected session with no pending query, no timers armed and no
current error; used as a concrete evaluation point. -/
def connectedState : SessionState :=
  { query := "", connectionState := .connected, isLoading := false,
    messages := [], currentStreamingMessage := "", error := none,
    retryCount := 0, lastHeartbeat := 0, queryTimeout := none,
    reconnectTimeout := none, heartbeatCheck := none,
    healthCheckInterval := none }

/-! ## Helper lemmas -/

/-- Under the retry ceiling, `retryStep` schedules a reconnect with the
clamped exponential-backoff delay and moves to `reconnecting`. -/
theorem retryStep_of_lt (s : SessionState) (h : s.retryCount < maxRetries) :
    retryStep s =
      ({ s with
          connectionState := .reconnecting,
          error := some (createError .connection
            ("Reconnecting in "
              ++ toString ((min (2 ^ s.retryCount * 1000) 30000 + 999) / 1000)
              ++ " seconds... (" ++ toString (s.retryCount + 1) ++ "/"
              ++ toString maxRetries ++ ")") true),
          reconnectTimeout := some (min (2 ^ s.retryCount * 1000) 30000) },
        some (min (2 ^ s.retryCount * 1000) 30000)) := by
  unfold retryStep
  rw [if_pos h]

/-- At or above the retry ceiling, `retryStep` schedules nothing and moves
to terminal `error`. -/
theorem retryStep_of_ge (s : SessionState) (h : maxRetries ≤ s.retryCount) :
    retryStep s =
      ({ s with
          error := some (createError .connection
            ("Connection failed after multiple attempts. "
              ++ "Please check your internet connection and try again.") true),
          connectionState := .error }, none) := by
  unfold retryStep
  rw [if_neg (Nat.not_lt.mpr h)]

/-- The close-code policy on code 1013: falls through to the retry block
with state `server_error` and a retryable `rate_limit` error. -/
theorem closeCodeStep_1013 (s : SessionState) :
    closeCodeStep 1013 s =
      .proceed { clearAllTimeouts s with
        isLoading := false,
        error := some (createError .rate_limit
          "Server is currently overloaded. Retrying..." true),
        connectionState := .server_error } := rfl

/-- The close-code policy on any abnormal code other than 1008/1003/1013:
falls through to the retry block with state `disconnected`. -/
theorem closeCodeStep_other (code : Nat) (s : SessionState)
    (h0 : code ≠ 1000) (h8 : code ≠ 1008) (h3 : code ≠ 1003) (h13 : code ≠ 1013) :
    closeCodeStep code s =
      .proceed { clearAllTimeouts s with
        isLoading := false, connectionState := .disconnected } := by
  unfold closeCodeStep
  rw [if_neg h0, if_neg (not_or.mpr ⟨h8, h3⟩), if_neg h13]

/-! ## Claims -/

/-- Claim C1 (amended): for close code 1000 the post-state is
`disconnected` with no retry scheduled; for codes 1008/1003 the post-state
is `server_error` with a non-retryable `server` error and no retry
scheduled; for code 1013 under the retry ceiling the close-code policy
first records `server_error` with a retryable `rate_limit` error, then the
retry block schedules a reconnect and leaves the post-state `reconnecting`
with a retryable error. -/
theorem C1_close_code_policy (s : SessionState) :
    ((wsOnClose 1000 s).1.connectionState = ConnectionState.disconnected ∧
      (wsOnClose 1000 s).2 = none ∧
      (wsOnClose 1000 s).1.reconnectTimeout = none) ∧
    (∀ c : Nat, c = 1008 ∨ c = 1003 →
      (wsOnClose c s).1.connectionState = ConnectionState.server_error ∧
      (wsOnClose c s).1.error = some (createError .server
        "Server rejected connection. Please try again later." false) ∧
      (wsOnClose c s).2 = none ∧
      (wsOnClose c s).1.reconnectTimeout = none) ∧
    (s.retryCount < maxRetries →
      (closeCodeStep 1013 s).returnedEarly = false ∧
      (closeCodeStep 1013 s).state.connectionState = ConnectionState.server_error ∧
      (closeCodeStep 1013 s).state.error = some (createError .rate_limit
        "Server is currently overloaded. Retrying..." true) ∧
      (wsOnClose 1013 s).1.connectionState = ConnectionState.reconnecting ∧
      (wsOnClose 1013 s).2 = some (min (2 ^ s.retryCount * 1000) 30000) ∧
      Option.map ErrorState.retryable (wsOnClose 1013 s).1.error = some true) := by
  refine ⟨⟨rfl, rfl, rfl⟩, ?_, ?_⟩
  · rintro c (rfl | rfl) <;> exact ⟨rfl, rfl, rfl, rfl⟩
  · intro h
    have hwc : wsOnClose 1013 s = retryStep { clearAllTimeouts s with
        isLoading := false,
        error := some (createError .rate_limit
          "Server is currently overloaded. Retrying..." true),
        connectionState := .server_error } := rfl
    have hr := retryStep_of_lt { clearAllTimeouts s with
        isLoading := false,
        error := some (createError .rate_limit
          "Server is currently overloaded. Retrying..." true),
        connectionState := .server_error } h
    refine ⟨rfl, rfl, rfl, ?_, ?_, ?_⟩ <;>
      rw [hwc, hr] <;> rfl

/-- Witness for C1: concrete close events on a fresh connected session. -/
theorem C1_close_code_policy_witness :
    (wsOnClose 1008 connectedState).1.connectionState = ConnectionState.server_error ∧
    (wsOnClose 1013 connectedState).1.connectionState = ConnectionState.reconnecting ∧
    (wsOnClose 1013 connectedState).2 =
      some (min (2 ^ connectedState.retryCount * 1000) 30000) := by
  have h := C1_close_code_policy connectedState
  exact ⟨(h.2.1 1008 (Or.inl rfl)).1,
    (h.2.2 (by decide)).2.2.2.1,
    (h.2.2 (by decide)).2.2.2.2.1⟩

/-- Counterexample to C1 as stated: on close code 1013 with retries
remaining, the handler's post-state is `reconnecting`, not `server_error`
(the retry-scheduling block overwrites the state set by the close-code
policy). -/
theorem C1_close_code_counterexample :
    connectedState.retryCount < maxRetries ∧
    (wsOnClose 1013 connectedState).1.connectionState = ConnectionState.reconnecting ∧
    (wsOnClose 1013 connectedState).1.connectionState ≠ ConnectionState.server_error := by
  decide

/-- Claim C2: for every abnormal close (code not 1000/1008/1003) under the
retry ceiling, the scheduled reconnect delay is `min(2^n * 1000, 30000)`
for attempt `n`; the clamped formula on attempts 0..5 gives exactly
1000, 2000, 4000, 8000, 16000, 30000 ms; and once the attempt count
reaches the ceiling no retry is scheduled and the state machine enters
terminal `error`. -/
theorem C2_retry_backoff (s : SessionState) (code : Nat)
    (h0 : code ≠ 1000) (h8 : code ≠ 1008) (h3 : code ≠ 1003) :
    (s.retryCount < maxRetries →
      (wsOnClose code s).2 = some (min (2 ^ s.retryCount * 1000) 30000) ∧
      (wsOnClose code s).1.connectionState = ConnectionState.reconnecting) ∧
    (maxRetries ≤ s.retryCount →
      (wsOnClose code s).2 = none ∧
      (wsOnClose code s).1.connectionState = ConnectionState.error ∧
      (wsOnClose code s).1.reconnectTimeout = none) ∧
    (List.range 6).map (fun n => min (2 ^ n * 1000) 30000) =
      [1000, 2000, 4000, 8000, 16000, 30000] := by
  have hstep : ∃ s', closeCodeStep code s = .proceed s' ∧
      s'.retryCount = s.retryCount ∧ s'.reconnectTimeout = none := by
    by_cases h13 : code = 1013
    · subst h13
      exact ⟨_, closeCodeStep_1013 s, rfl, rfl⟩
    · exact ⟨_, closeCodeStep_other code s h0 h8 h3 h13, rfl, rfl⟩
  obtain ⟨s', hs', hrc, hrt⟩ := hstep
  have hwc : wsOnClose code s = retryStep s' := by
    unfold wsOnClose
    rw [hs']
  refine ⟨?_, ?_, by decide⟩
  · intro h
    rw [hwc, retryStep_of_lt s' (by omega)]
    exact ⟨by rw [hrc], rfl⟩
  · intro h
    rw [hwc, retryStep_of_ge s' (by omega)]
    exact ⟨rfl, rfl, hrt⟩

/-- Witness for C2: an abnormal close (code 1006) at attempt 0 schedules a
1000 ms retry; at attempt 5 no retry is scheduled. -/
theorem C2_retry_backoff_witness :
    (wsOnClose 1006 connectedState).2 =
      some (min (2 ^ connectedState.retryCount * 1000) 30000) ∧
    (wsOnClose 1006 { connectedState with retryCount := 5 }).2 = none := by
  refine ⟨((C2_retry_backoff connectedState 1006
      (by decide) (by decide) (by decide)).1 (by decide)).1, ?_⟩
  exact ((C2_retry_backoff { connectedState with retryCount := 5 } 1006
      (by decide) (by decide) (by decide)).2.1 (by decide)).1

/-- Claim C3 (amended): only explicit `heartbeat` events update
`lastHeartbeat` and re-arm the heartbeat deadline timer; decoded `log`,
`final_output` and `connection_status` events leave both untouched. -/
theorem C3_liveness_only_heartbeat (s : SessionState) (now : Nat)
    (content : String) (ts : Option String) (md : Option Metadata) :
    ((wsOnMessage (.frame (some "heartbeat") (.str content) ts md) now s).1.lastHeartbeat
        = now ∧
      (wsOnMessage (.frame (some "heartbeat") (.str content) ts md) now s).1.heartbeatCheck
        = some (now + heartbeatTimeoutMs)) ∧
    ((wsOnMessage (.frame (some "log") (.str content) ts md) now s).1.lastHeartbeat
        = s.lastHeartbeat ∧
      (wsOnMessage (.frame (some "log") (.str content) ts md) now s).1.heartbeatCheck
        = s.heartbeatCheck) ∧
    ((wsOnMessage (.frame (some "final_output") (.str content) ts md) now s).1.lastHeartbeat
        = s.lastHeartbeat ∧
      (wsOnMessage (.frame (some "final_output") (.str content) ts md) now s).1.heartbeatCheck
        = s.heartbeatCheck) ∧
    ((wsOnMessage (.frame (some "connection_status") (.str content) ts md) now s).1.lastHeartbeat
        = s.lastHeartbeat ∧
      (wsOnMessage (.frame (some "connection_status") (.str content) ts md) now s).1.heartbeatCheck
        = s.heartbeatCheck) :=
  ⟨⟨rfl, rfl⟩, ⟨rfl, rfl⟩, ⟨rfl, rfl⟩, ⟨rfl, rfl⟩⟩

/-- Counterexample to C3 as stated: a decoded `log` event neither updates
`lastHeartbeat` nor re-arms the heartbeat deadline timer. -/
theorem C3_log_no_liveness_update :
    (wsOnMessage (.frame (some "log") (.str "step") none none) 1000
        connectedState).1.lastHeartbeat = 0 ∧
    (1000 : Nat) ≠ 0 ∧
    (wsOnMessage (.frame (some "log") (.str "step") none none) 1000
        connectedState).1.heartbeatCheck = none := by
  decide

/-- Claim C4 (amended): `sendQuery` fails with a non-retryable validation
error when the trimmed text is empty or its trimmed length exceeds 500;
otherwise with a retryable `connection` error when not `connected`;
otherwise with a non-retryable busy error when a query is already pending.
Each failure changes only the current error — no frame is sent and the
pending query (`isLoading`, `queryTimeout`) is untouched. -/
theorem C4_submit_contract (s : SessionState) (now : Nat) (sendFails : Bool) :
    (jsTrim s.query = "" →
      sendQuery now sendFails s =
        ({ s with error := some (createError .unknown "Please enter a query" false) },
          none)) ∧
    (jsTrim s.query ≠ "" → 500 < (jsTrim s.query).length →
      sendQuery now sendFails s =
        ({ s with error := some (createError .unknown
            "Query is too long. Please keep it under 500 characters." false) },
          none)) ∧
    (jsTrim s.query ≠ "" → (jsTrim s.query).length ≤ 500 →
      s.connectionState ≠ ConnectionState.connected →
      sendQuery now sendFails s =
        ({ s with error := some (createError .connection
            "Not connected to server. Please wait for connection." true) },
          none)) ∧
    (jsTrim s.query ≠ "" → (jsTrim s.query).length ≤ 500 →
      s.connectionState = ConnectionState.connected → s.isLoading = true →
      sendQuery now sendFails s =
        ({ s with error := some (createError .unknown
            "Please wait for the current query to complete" false) },
          none)) := by
  refine ⟨?_, ?_, ?_, ?_⟩
  · intro h1
    unfold sendQuery
    rw [if_pos h1]
  · intro h1 h2
    unfold sendQuery
    rw [if_neg h1, if_pos h2]
  · intro h1 h2 h3
    unfold sendQuery
    rw [if_neg h1, if_neg (Nat.not_lt.mpr h2), if_pos h3]
  · intro h1 h2 h3 h4
    unfold sendQuery
    rw [if_neg h1, if_neg (Nat.not_lt.mpr h2), if_neg (not_ne_iff.mpr h3), if_pos h4]

/-- A connected session with a pending query: used to evaluate the busy
branch of the submit contract. -/
def busyState : SessionState :=
  { connectedState with query := "hello", isLoading := true }

/-- Witness for C4: submitting while a query is pending fails with the
non-retryable busy error and sends no frame. -/
theorem C4_submit_contract_witness :
    sendQuery 0 false busyState =
      ({ busyState with error := some (createError .unknown
          "Please wait for the current query to complete" false) }, none) :=
  (C4_submit_contract busyState 0 false).2.2.2
    (by decide) (by decide) (by decide) (by decide)

set_option maxRecDepth 8192 in
/-- Counterexample to C4 as stated: a raw text of length 501 whose trimmed
length is 2 passes validation and is sent, with no error recorded. -/
theorem C4_untrimmed_length_counterexample :
    500 < ("hi" ++ String.mk (List.replicate 499 ' ')).length ∧
    (sendQuery 0 false { connectedState with
        query := "hi" ++ String.mk (List.replicate 499 ' ') }).2 = some "hi" ∧
    (sendQuery 0 false { connectedState with
        query := "hi" ++ String.mk (List.replicate 499 ' ') }).1.error = none := by
  decide

/-- Claim C5 (amended): a frame that fails to parse, lacks a type tag
(absent or empty — JS-falsy), or lacks a string content field yields a
retryable `parse` SessionError and is discarded (nothing delivered, only
the error field changes, so the session is not torn down); a frame with an
unrecognized non-empty type tag is silently discarded with no error. -/
theorem C5_decode_error_policy (s : SessionState) (now : Nat)
    (c : JsValue) (t : Option String) (ts : Option String) (md : Option Metadata)
    (u v : String) (hu0 : u ≠ "") (hu1 : u ≠ "connection_status")
    (hu2 : u ≠ "heartbeat") (hu3 : u ≠ "log") (hu4 : u ≠ "final_output") :
    wsOnMessage .malformed now s =
      ({ s with error := some (createError .parse
          "Received invalid response from server" true) }, []) ∧
    wsOnMessage (.frame none c ts md) now s =
      ({ s with error := some (createError .parse
          "Received malformed message from server" true) }, []) ∧
    wsOnMessage (.frame (some "") c ts md) now s =
      ({ s with error := some (createError .parse
          "Received malformed message from server" true) }, []) ∧
    wsOnMessage (.frame t .nonString ts md) now s =
      ({ s with error := some (createError .parse
          "Received malformed message from server" true) }, []) ∧
    wsOnMessage (.frame t .absent ts md) now s =
      ({ s with error := some (createError .parse
          "Received malformed message from server" true) }, []) ∧
    wsOnMessage (.frame (some u) (.str v) ts md) now s = (s, []) := by
  refine ⟨rfl, rfl, rfl, ?_, ?_, ?_⟩
  · unfold wsOnMessage
    simp [JsValue.isStr]
  · unfold wsOnMessage
    simp [JsValue.isStr]
  · unfold wsOnMessage
    simp [jsTruthy, JsValue.isStr, hu0, hu1, hu2, hu3, hu4]

/-- Witness for C5: a concrete unrecognized type tag is discarded with the
session state unchanged. -/
theorem C5_decode_error_policy_witness :
    wsOnMessage (.frame (some "bogus") (.str "x") none none) 3 connectedState =
      (connectedState, []) :=
  (C5_decode_error_policy connectedState 3 (.str "x") none none none "bogus" "x"
    (by decide) (by decide) (by decide) (by decide) (by decide)).2.2.2.2.2

/-- Counterexample to C5 as stated: a frame carrying the unrecognized type
tag "bogus" with a string content does not yield a `parse` SessionError —
the handler discards it with only a console warning, leaving the error
field unchanged (`none`). -/
theorem C5_unknown_type_counterexample :
    wsOnMessage (.frame (some "bogus") (.str "x") none none) 7 connectedState =
      (connectedState, []) ∧
    connectedState.error = none := by
  decide

/-- Claim C6: a malformed inbound frame (unparseable, missing/falsy type
tag, or non-string content) leaves `ConnectionState` unchanged, neither
clears nor creates a pending query (`queryTimeout` and `isLoading` are
untouched), and delivers nothing to the UI sink. -/
theorem C6_malformed_preserves_state (s : SessionState) (now : Nat)
    (c : JsValue) (t : Option String) (ts : Option String) (md : Option Metadata) :
    ((wsOnMessage .malformed now s).1.connectionState = s.connectionState ∧
      (wsOnMessage .malformed now s).1.queryTimeout = s.queryTimeout ∧
      (wsOnMessage .malformed now s).1.isLoading = s.isLoading ∧
      (wsOnMessage .malformed now s).2 = []) ∧
    ((wsOnMessage (.frame none c ts md) now s).1.connectionState = s.connectionState ∧
      (wsOnMessage (.frame none c ts md) now s).1.queryTimeout = s.queryTimeout ∧
      (wsOnMessage (.frame none c ts md) now s).1.isLoading = s.isLoading ∧
      (wsOnMessage (.frame none c ts md) now s).2 = []) ∧
    ((wsOnMessage (.frame (some "") c ts md) now s).1.connectionState = s.connectionState ∧
      (wsOnMessage (.frame (some "") c ts md) now s).1.queryTimeout = s.queryTimeout ∧
      (wsOnMessage (.frame (some "") c ts md) now s).1.isLoading = s.isLoading ∧
      (wsOnMessage (.frame (some "") c ts md) now s).2 = []) ∧
    ((wsOnMessage (.frame t .nonString ts md) now s).1.connectionState = s.connectionState ∧
      (wsOnMessage (.frame t .nonString ts md) now s).1.queryTimeout = s.queryTimeout ∧
      (wsOnMessage (.frame t .nonString ts md) now s).1.isLoading = s.isLoading ∧
      (wsOnMessage (.frame t .nonString ts md) now s).2 = []) ∧
    ((wsOnMessage (.frame t .absent ts md) now s).1.connectionState = s.connectionState ∧
      (wsOnMessage (.frame t .absent ts md) now s).1.queryTimeout = s.queryTimeout ∧
      (wsOnMessage (.frame t .absent ts md) now s).1.isLoading = s.isLoading ∧
      (wsOnMessage (.frame t .absent ts md) now s).2 = []) := by
  refine ⟨⟨rfl, rfl, rfl, rfl⟩, ⟨rfl, rfl, rfl, rfl⟩, ⟨rfl, rfl, rfl, rfl⟩, ?_, ?_⟩ <;>
  · unfold wsOnMessage
    simp [JsValue.isStr]

/-- Claim C7: receiving a `final_output` frame cancels the query timeout
and clears the pending query unconditionally — even when the content is
the empty string — and delivers the content to the UI sink exactly once
(the sink receives precisely one ai message this invocation). -/
theorem C7_final_output_completion (s : SessionState) (now : Nat)
    (content : String) (ts : Option String) (md : Option Metadata) :
    wsOnMessage (.frame (some "final_output") (.str content) ts md) now s =
      ({ s with
          queryTimeout := none,
          messages := addMessageList s.messages
            { id := toString now, type_ := .ai, content := content,
              timestamp := ts.getD (toString now), metadata := none },
          currentStreamingMessage := "", isLoading := false },
        [{ id := toString now, type_ := .ai, content := content,
           timestamp := ts.getD (toString now), metadata := none }]) := rfl

/-- Claim C8 (amended): a failed health probe (non-2xx status or transport
error) only annotates the status — it sets a `server`/`network` error when
the session is `connected` and never changes `ConnectionState`, the retry
counter or the reconnect timer; a subsequent successful probe clears the
advisory only when the active error has kind `server` — a `network`
advisory from a transport-error probe failure is left in place. -/
theorem C8_health_probe_advisory (s : SessionState) (status : Nat) :
    ((performHealthCheck (.httpFailure status) s).connectionState = s.connectionState ∧
      (performHealthCheck (.httpFailure status) s).reconnectTimeout = s.reconnectTimeout ∧
      (performHealthCheck (.httpFailure status) s).retryCount = s.retryCount ∧
      (performHealthCheck (.httpFailure status) s).error =
        (if s.connectionState = ConnectionState.connected then
          some (createError .server "Backend service may be experiencing issues" true)
        else s.error)) ∧
    ((performHealthCheck .transportFailure s).connectionState = s.connectionState ∧
      (performHealthCheck .transportFailure s).reconnectTimeout = s.reconnectTimeout ∧
      (performHealthCheck .transportFailure s).retryCount = s.retryCount ∧
      (performHealthCheck .transportFailure s).error =
        (if s.connectionState = ConnectionState.connected then
          some (createError .network "Backend service health check failed" true)
        else s.error)) ∧
    ((performHealthCheck .success s).connectionState = s.connectionState ∧
      (performHealthCheck .success s).error =
        (if errorKindIsServer s.error then none else s.error)) := by
  refine ⟨⟨?_, ?_, ?_, ?_⟩, ⟨?_, ?_, ?_, ?_⟩, ?_, ?_⟩ <;>
  · simp only [performHealthCheck]
    split <;> rfl

/-- Counterexample to C8 as stated: after a transport-error probe failure
set a `network` advisory; a subsequent successful probe does not clear it
(only `server`-kind errors are cleared). -/
theorem C8_network_advisory_not_cleared :
    (performHealthCheck .transportFailure connectedState).error =
      some (createError .network "Backend service health check failed" true) ∧
    performHealthCheck .success (performHealthCheck .transportFailure connectedState) =
      performHealthCheck .transportFailure connectedState ∧
    (performHealthCheck .success
      (performHealthCheck .transportFailure connectedState)).error ≠ none := by
  decide

/-- A session at teardown time with all four timer categories armed:
a reconnect timer, a heartbeat deadline, a query timeout and the
health-probe interval. -/
def allTimersArmed : SessionState :=
  { connectedState with
      reconnectTimeout := some 1,
      heartbeatCheck := some 2,
      queryTimeout := some 3,
      healthCheckInterval := some 4 }

/-- Claim C9 (code divergence): the `useEffect` unmount cleanup closes the
transport exactly once and cancels the reconnect timer and the
health-probe interval, but leaves the heartbeat deadline timer and the
query timeout armed — contradicting the claim that all four timer
categories are cancelled at teardown. -/
theorem C9_teardown_leaves_timers_armed :
    (unmountCleanup true allTimersArmed).2 = 1 ∧
    (unmountCleanup true allTimersArmed).1.reconnectTimeout = none ∧
    (unmountCleanup true allTimersArmed).1.healthCheckInterval = none ∧
    (unmountCleanup true allTimersArmed).1.heartbeatCheck = some 2 ∧
    (unmountCleanup true allTimersArmed).1.queryTimeout = some 3 := by
  decide

/-- Claim C10: appending via `addMessage` keeps the chat log at length at
most 100, and appending to a list already holding 100 messages drops the
oldest so that exactly the 100 most recent messages remain in arrival
order. -/
theorem C10_message_cap (prev : List ChatMessage) (m : ChatMessage) :
    (addMessageList prev m).length ≤ maxMessages ∧
      (prev.length = maxMessages → addMessageList prev m = prev.tail ++ [m]) := by
  constructor
  · simp only [addMessageList]
    split
    · rename_i h
      simp only [List.length_drop]
      omega
    · rename_i h
      simp only [List.length_append, List.length_cons, List.length_nil] at h ⊢
      omega
  · intro h
    have hc : (prev ++ [m]).length > maxMessages := by
      simp [h, maxMessages]
    simp only [addMessageList]
    rw [if_pos hc]
    have h1 : (prev ++ [m]).length - maxMessages = 1 := by
      simp [h, maxMessages]
    rw [h1, List.drop_append_of_le_length (by simp [h, maxMessages]),
      List.drop_one]

/-- A concrete log message used to exercise the message cap. -/
def msgA : ChatMessage :=
  { id := "a", type_ := .log, content := "c", timestamp := "t", metadata := none }

/-- A concrete ai message used to exercise the message cap. -/
def msgB : ChatMessage :=
  { id := "b", type_ := .ai, content := "d", timestamp := "u", metadata := none }

/-- Witness for C10: appending to a log of exactly 100 messages drops the
oldest entry. -/
theorem C10_message_cap_witness :
    (List.replicate 100 msgA).length = 100 ∧
    addMessageList (List.replicate 100 msgA) msgB =
      (List.replicate 100 msgA).tail ++ [msgB] := by
  refine ⟨by simp, ?_⟩
  exact (C10_message_cap (List.replicate 100 msgA) msgB).2 (by simp [maxMessages])
